import Mathlib

/-!
Verification of the lip-reading inference pipeline of
`compvis/services/lipread/app.py` and `compvis/services/lipread/app_lightweight.py`.

The Python code is shallowly embedded as follows.

* Python/numpy floats are modelled exactly: finite values as rationals and the
  IEEE quiet NaN as an extra point of the carrier `PF`.  Rounding is not
  modelled; none of the verified properties depends on it (all comparisons in
  scope are either between 0 and a threshold or structurally forced).
* `numpy.sqrt` on a positive rational is not rational in general, so the
  embedding is parametrised by a function `s : Q -> Q` standing for the square
  root of a positive value; `sqrt 0 = 0` (exact in IEEE arithmetic) is built in.
  Every theorem below is proved for every such `s`, because no verified
  property depends on the value of a square root of a nonzero quantity.
* `np.mean` / `np.var` / `np.std` of an empty slice produce NaN (numpy emits a
  RuntimeWarning, not an exception); `np.max` / `np.min` of an empty array
  raise a ValueError.  `np.sum` of an empty array is 0.  Python `max(a, b)`
  returns `b` exactly when `b > a` and `min(a, b)` returns `b` exactly when
  `b < a`; with a NaN operand every comparison is false.
* Exceptions are modelled with `Except` / `Option`; the broad
  `try/except` blocks of the source become the corresponding catch branches.
* The iteration order of `list(set(lip_indices))` is fixed to the order
  CPython 3.11 actually produces (verified below to be a permutation of the
  deduplicated literal list).  Every general theorem is independent of that
  order; only the concrete input of the C4 counterexample places its values
  by position in it.
-/

set_option maxRecDepth 200000
set_option maxHeartbeats 2000000

/- The Batteries rational-number operations are `@[irreducible]`, which only
affects elaboration; re-enabling unfolding lets `decide` evaluate the
embedded pipeline on concrete inputs (the kernel ignores reducibility
attributes either way). -/
attribute [local semireducible] Rat.add Rat.sub Rat.mul Rat.inv Rat.ofScientific

/-- A Python/numpy float value: a finite rational or the quiet NaN. -/
inductive PF where
  | num (q : ℚ)
  | nan
deriving DecidableEq

namespace PF

/-- Float addition: NaN propagates. -/
def add : PF → PF → PF
  | num a, num b => num (a + b)
  | _, _ => nan

/-- Float subtraction: NaN propagates. -/
def sub : PF → PF → PF
  | num a, num b => num (a - b)
  | _, _ => nan

/-- Float multiplication: NaN propagates.  (Overflow to infinity is not
modelled; no verified property involves values anywhere near overflow.) -/
def mul : PF → PF → PF
  | num a, num b => num (a * b)
  | _, _ => nan

/-- Float negation. -/
def neg : PF → PF
  | num a => num (-a)
  | nan => nan

/-- Float strict comparison as in Python/numpy: any comparison involving a
NaN is false. -/
def flt : PF → PF → Bool
  | num a, num b => decide (a < b)
  | _, _ => false

end PF

/-- Python `max(a, b)`: returns `b` exactly when `b > a` (false for NaN). -/
def pyMax (a b : PF) : PF := if PF.flt a b then b else a

/-- Python `min(a, b)`: returns `b` exactly when `b < a` (false for NaN). -/
def pyMin (a b : PF) : PF := if PF.flt b a then b else a

/-- Arithmetic mean of a nonempty rational list (caller guards emptiness). -/
def qMean (l : List ℚ) : ℚ := l.sum / (l.length : ℚ)

/-- `np.var` of a nonempty rational list: mean of squared deviations
(`np.var(a) = mean(abs(a - a.mean())**2)`; on rationals `abs(x)**2 = x*x`). -/
def qVar (l : List ℚ) : ℚ :=
  let m := qMean l
  (l.map (fun x => (x - m) * (x - m))).sum / (l.length : ℚ)

/-- Square root of a nonnegative rational, parametrised by `s` for the
irrational case; `sqrt 0 = 0` exactly as in IEEE arithmetic. -/
def qSqrt (s : ℚ → ℚ) (q : ℚ) : ℚ := if q = 0 then 0 else s q

/-- `np.mean` over rational data: NaN on an empty slice. -/
def npMeanQ (l : List ℚ) : PF := if l.isEmpty then PF.nan else PF.num (qMean l)

/-- `np.var` over rational data: NaN on an empty slice. -/
def npVarQ (l : List ℚ) : PF := if l.isEmpty then PF.nan else PF.num (qVar l)

/-- `np.mean` over float data that may already contain NaN. -/
def npMeanP (l : List PF) : PF :=
  if l.isEmpty then PF.nan
  else PF.mul (l.foldl PF.add (PF.num 0)) (PF.num (1 / (l.length : ℚ)))

/-- `np.var` over float data that may already contain NaN. -/
def npVarP (l : List PF) : PF :=
  let m := npMeanP l
  npMeanP (l.map (fun x => PF.mul (PF.sub x m) (PF.sub x m)))

/-- `np.std` over float data: square root of the variance. -/
def npStdP (s : ℚ → ℚ) (l : List PF) : PF :=
  match npVarP l with
  | PF.num q => if q = 0 then PF.num 0 else if q < 0 then PF.nan else PF.num (s q)
  | PF.nan => PF.nan

/-- `np.max` of rational data; `none` models the ValueError on an empty array. -/
def qMax? (l : List ℚ) : Option ℚ := l.max?

/-- `np.min` of rational data; `none` models the ValueError on an empty array. -/
def qMin? (l : List ℚ) : Option ℚ := l.min?

/-- Sum of squares of a rational vector (the radicand of `np.linalg.norm`). -/
def sumSq (l : List ℚ) : ℚ := (l.map (fun x => x * x)).sum

/-- One landmark frame: a list of points, each point a list of coordinates. -/
abbrev Frame : Type := List (List ℚ)

/-- A 2-D array of rationals (a stacked feature matrix). -/
abbrev Tensor2 : Type := List (List ℚ)

/-- A 3-D array of rationals (batch of feature matrices). -/
abbrev Tensor3 : Type := List Tensor2

/-- `shape[1]` of a 3-D array (rows of the first batch entry; the embedded
arrays are rectangular wherever this is consulted). -/
def dim1 (t : Tensor3) : ℕ := t.headI.length

/-- `shape[2]` of a 3-D array. -/
def dim2 (t : Tensor3) : ℕ := t.headI.headI.length

/-- `a[:, :, j]` flattened: the j-th coordinate of every (batch, row) entry. -/
def flatPlane (t : Tensor3) (j : ℕ) : List ℚ :=
  (t.map (fun m => m.map (fun r => r.getD j 0))).flatten

/-- `np.diff(t, axis=0)`: differences of consecutive batch entries
(entry `i` is `t[i+1] - t[i]`, computed pointwise). -/
def tdiff0 (t : Tensor3) : List Tensor2 :=
  List.zipWith (fun nxt prv => List.zipWith (List.zipWith (fun a b => a - b)) nxt prv)
    (t.drop 1) t

/-- `np.linalg.norm(d, axis=2)` for one difference matrix: the Euclidean norm
of every row. -/
def rowNorms (s : ℚ → ℚ) (m : Tensor2) : List ℚ := m.map (fun r => qSqrt s (sumSq r))

/-- The `movement_intensity` expression shared by `analyze_lip_patterns` and
`calculate_confidence` in app.py:
`np.mean(np.linalg.norm(np.diff(t, axis=0), axis=2))`.
NaN whenever the leading axis has length at most 1. -/
def movementIntensity (s : ℚ → ℚ) (t : Tensor3) : PF :=
  npMeanQ ((tdiff0 t).map (rowNorms s)).flatten

/-- `np.var(t, axis=1)`: for every batch entry and column, the variance across
the rows of that batch entry. -/
def frameVarList (t : Tensor3) : List (List PF) :=
  t.map (fun m => (List.range m.headI.length).map (fun w => npVarQ (m.map (fun r => r.getD w 0))))

/-! ## app.py: `preprocess_landmarks` -/

/-- The literal `lip_indices` list of `preprocess_landmarks` (app.py, lines
81-88), in source order, duplicates included. -/
def lipIdxRaw : List ℕ :=
  [61, 84, 17, 314, 405, 320, 307, 375, 321, 308, 324, 318,
   78, 95, 88, 178, 87, 14, 317, 402, 318, 324, 308,
   13, 82, 81, 80, 310, 311, 312]

/-- `valid_lip_indices = list(set([i for i in lip_indices if i < 468]))`:
all entries are below 468, so only deduplication remains.  This literal is
the iteration order CPython 3.11 produces for that set (deterministic for
small nonnegative integers); `lipIdx_is_dedup` below checks it is a
permutation of the deduplicated literal list. -/
def lipIdx : List ℕ :=
  [13, 14, 17, 402, 405, 178, 307, 308, 310, 311, 312, 314, 317, 61,
   318, 320, 321, 324, 78, 80, 81, 82, 84, 87, 88, 95, 375]

/-- Errors raised inside `preprocess_landmarks` (caught and re-raised, then
converted to the error response by the `/predict` handler).  Message texts of
the numpy/torch errors are abbreviated; only the `noValid` text is asserted
verbatim by the spec. -/
inductive PErr where
  | noValid
  | inhomog
  | broadcast (a b : ℕ)
  | ragged (exp got : ℕ)
deriving DecidableEq

/-- `str(e)` for each preprocessing error. -/
def PErr.msg : PErr → String
  | PErr.noValid => "No valid lip landmarks found"
  | PErr.inhomog => "setting an array element with a sequence"
  | PErr.broadcast _ _ => "operands could not be broadcast together"
  | PErr.ragged _ _ => "expected sequence of uniform length"

/-- `lip_landmarks = [frame_landmarks[i] for i in valid_lip_indices if i < len(frame_landmarks)]`. -/
def lipPoints (f : Frame) : List (List ℚ) :=
  (lipIdx.filter (fun i => decide (i < f.length))).map (fun i => f.getD i [])

/-- `np.array`, centering, scaling and flattening of one frame's lip points
(app.py lines 102-122 without the temporal part): `np.array` fails on
inhomogeneous point lengths; the centroid is subtracted coordinate-wise; the
array is divided by its standard deviation when that is positive. -/
def normFlat (s : ℚ → ℚ) (pts : List (List ℚ)) : Except PErr (List ℚ) :=
  let d0 := pts.headI.length
  if pts.all (fun p => decide (p.length = d0)) then
    let center := fun j => qMean (pts.map (fun p => p.getD j 0))
    let centered := pts.map (fun p => (List.range d0).map (fun j => p.getD j 0 - center j))
    let scale := qSqrt s (qVar centered.flatten)
    let scaled := if 0 < scale then centered.map (fun p => p.map (fun x => x / scale)) else centered
    Except.ok scaled.flatten
  else Except.error PErr.inhomog

/-- numpy 1-D subtraction `a - b` with broadcasting: defined when the lengths
agree or either operand has length 1; otherwise a ValueError. -/
def npSub1 (a b : List ℚ) : Except PErr (List ℚ) :=
  if a.length = b.length then Except.ok (List.zipWith (fun x y => x - y) a b)
  else if b.length = 1 then Except.ok (a.map (fun x => x - b.headI))
  else if a.length = 1 then Except.ok (b.map (fun y => a.headI - y))
  else Except.error (PErr.broadcast a.length b.length)

/-- The frame loop of `preprocess_landmarks` (app.py lines 95-124): frames
with fewer than 468 points are skipped; a qualifying frame is normalised and
flattened; from the second processed frame on, the displacement from the
previous *processed* frame is concatenated.  `prev` is the last processed
frame (`processed_frames[-1]`). -/
def buildFramesFrom (s : ℚ → ℚ) (prev : Option (List ℚ)) :
    List Frame → Except PErr (List (List ℚ))
  | [] => Except.ok []
  | f :: rest =>
    if 468 ≤ f.length then
      let lp := lipPoints f
      if lp.isEmpty then buildFramesFrom s prev rest
      else
        match normFlat s lp with
        | Except.error e => Except.error e
        | Except.ok flat =>
          match prev with
          | none =>
            match buildFramesFrom s (some flat) rest with
            | Except.error e => Except.error e
            | Except.ok tail => Except.ok (flat :: tail)
          | some p =>
            match npSub1 flat p with
            | Except.error e => Except.error e
            | Except.ok mv =>
              match buildFramesFrom s (some (flat ++ mv)) rest with
              | Except.error e => Except.error e
              | Except.ok tail => Except.ok ((flat ++ mv) :: tail)
    else buildFramesFrom s prev rest

/-- `processed_frames` for a whole request. -/
def buildFrames (s : ℚ → ℚ) (l : List Frame) : Except PErr (List (List ℚ)) :=
  buildFramesFrom s none l

/-- `np.zeros_like(processed_frames[0])`. -/
def zeroLike (r : List ℚ) : List ℚ := List.replicate r.length 0

/-- Padding/truncation to `max_frames = 50` (app.py lines 130-137): truncate
to the first 50 processed frames, or repeatedly append
`np.zeros_like(processed_frames[0])` until there are 50. -/
def padTruncate (fs : List (List ℚ)) : List (List ℚ) :=
  if 50 < fs.length then fs.take 50
  else fs ++ List.replicate (50 - fs.length) (zeroLike fs.headI)

/-- `torch.tensor(processed_frames)` followed by `unsqueeze(0)`: fails if the
rows do not all have the width of the first row, otherwise yields the 3-D
tensor with batch dimension 1. -/
def stackTensor (rows : List (List ℚ)) : Except PErr Tensor3 :=
  match rows.find? (fun r => decide (r.length ≠ rows.headI.length)) with
  | some r => Except.error (PErr.ragged rows.headI.length r.length)
  | none => Except.ok [rows]

/-- `preprocess_landmarks` (app.py lines 73-149): build the processed frames,
fail with `No valid lip landmarks found` if none, pad/truncate to 50 and stack
into a `(1, 50, W)` tensor. -/
def preprocess_landmarks (s : ℚ → ℚ) (l : List Frame) : Except PErr Tensor3 :=
  match buildFrames s l with
  | Except.error e => Except.error e
  | Except.ok fs =>
    if fs.isEmpty then Except.error PErr.noValid
    else stackTensor (padTruncate fs)

/-! ## app.py: `detect_phonemes`, `phonemes_to_text`, `analyze_lip_patterns`,
`calculate_confidence`, `/predict` -/

/-- `np.mean(np.abs(frame_diffs), axis=1)` for one difference matrix: per
column, the mean absolute value across the rows. -/
def colMeanAbs (m : Tensor2) : List PF :=
  (List.range m.headI.length).map (fun w => npMeanQ (m.map (fun r => |r.getD w 0|)))

/-- The final fallback block of `detect_phonemes` (app.py lines 312-319): if
no rule fired, one default category is chosen from whichever range metric
exceeds the 0.001 noise floor, `H` before `M`, with hard-coded default `A`. -/
def withFallback (phs : List String) (lor lwr : ℚ) : List String :=
  if phs.isEmpty then
    [if (1:ℚ)/1000 < lor then "H" else if (1:ℚ)/1000 < lwr then "M" else "A"]
  else phs

/-- Body of `detect_phonemes` after the four aggregate extrema succeeded
(app.py lines 267-319).  `lor` is `lip_opening_range`, `lwr` is
`lip_width_range`.  (`lip_opening_mean` / `lip_width_mean` are computed but
never used and are omitted.) -/
def detectCore (s : ℚ → ℚ) (t : Tensor3) (lor lwr : ℚ) : List String :=
  let mp := (tdiff0 t).map colMeanAbs
  let mpFlat := mp.flatten
  let rapid := (mpFlat.filter (fun x => PF.flt (PF.mul (npMeanP mpFlat) (PF.num (6/5))) x)).length
  let rapidCond := decide (((mp.length : ℚ) * (1/5)) < (rapid : ℚ))
  let stopThresh := PF.mul (PF.neg (npStdP s mpFlat)) (PF.num (1/2))
  let stops := ((mp.map (fun row => List.zipWith PF.sub (row.drop 1) row)).flatten.filter
      (fun x => PF.flt x stopThresh)).length
  let stopsCond := decide (0 < stops)
  let avg := npMeanP mpFlat
  let avgCond := PF.flt (PF.num (1/100)) avg
  let vow : List String :=
    if (1:ℚ)/100 < lor then (if (1:ℚ)/125 < lwr then ["A"] else ["O"])
    else if (1:ℚ)/125 < lor then (if (1:ℚ)/200 < lwr then ["E"] else ["I"])
    else if (1:ℚ)/200 < lor then ["U"] else []
  let labial : List String := if (1:ℚ)/100 < lwr then ["M", "B", "P"] else []
  let fric : List String := if rapidCond then ["F", "V"] else []
  let stopC : List String := if stopsCond then ["T", "D"] else []
  let hCat : List String := if avgCond && decide ((1:ℚ)/100 < lor) then ["H"] else []
  let lCat : List String := if avgCond && decide ((1:ℚ)/100 < lwr) then ["L"] else []
  withFallback (vow ++ labial ++ fric ++ stopC ++ hCat ++ lCat) lor lwr

/-- `detect_phonemes` (app.py lines 253-326): the aggregate extrema of the
y/x planes raise a ValueError on empty input, which the broad `except` turns
into the fixed fallback list; otherwise the threshold cascade of `detectCore`
runs (it raises nothing). -/
def detect_phonemes (s : ℚ → ℚ) (t : Tensor3) (xs ys : List ℚ) : List String :=
  match qMax? ys, qMin? ys, qMax? xs, qMin? xs with
  | some ymax, some ymin, some xmax, some xmin =>
    detectCore s t (ymax - ymin) (xmax - xmin)
  | _, _, _, _ => ["H", "E", "L", "L", "O"]

/-- `p in "AEIOU"` for the single-letter phoneme strings. -/
def isVowel (p : String) : Bool := ["A", "E", "I", "O", "U"].contains p

/-- `phonemes_to_text` (app.py lines 328-429).  The result is an `Option`:
when the phoneme list is the single consonant-like `H` or `M`, the
`len(phonemes) == 1` branch is entered but none of its vowel cases matches,
so the Python function falls off the end and returns `None`.  The trailing
`except` of the source is unreachable (the body raises nothing) and the
unused `lip_opening_variance` argument is kept for signature fidelity. -/
def phonemes_to_text (ph : List String) (mi : PF) (lov : PF) : Option String :=
  let _ := lov
  let has := fun x => ph.contains x
  if ph.isEmpty then some "No speech detected"
  else if has "H" && has "E" && has "L" then
    some (if PF.flt (PF.num (3/200)) mi then "Hello world" else "Hello")
  else if has "H" && has "I" then some "Hi"
  else if has "G" && has "O" && has "D" then some "Good"
  else if has "T" && has "H" && has "A" && has "N" then some "Thank you"
  else if has "Y" && has "E" && has "S" then some "Yes"
  else if has "N" && has "O" then some "No"
  else if has "B" && has "Y" then some "Bye"
  else if has "P" && has "L" && has "E" then some "Please"
  else if has "S" && has "O" && has "R" then some "Sorry"
  else if ph.length = 1 then
    if has "A" then some "Ah"
    else if has "E" then some "Eh"
    else if has "I" then some "Ee"
    else if has "O" then some "Oh"
    else if has "U" then some "Oo"
    else none
  else if 2 ≤ (ph.filter isVowel).length then
    some (if PF.flt (PF.num (1/50)) mi then "Hello world"
          else if PF.flt (PF.num (3/200)) mi then "Hello" else "Hi")
  else if 2 ≤ (ph.filter (fun p => !isVowel p)).length then
    some (if has "M" || has "B" || has "P" then "Good"
          else if has "T" || has "D" then "Thank you" else "Yes")
  else if PF.flt (PF.num (1/50)) mi && decide (3 < ph.length) then some "Hello world"
  else if PF.flt (PF.num (3/200)) mi && decide (2 < ph.length) then some "Hello"
  else if PF.flt (PF.num (1/100)) mi then some "Hi"
  else some "Ah"

/-- `analyze_lip_patterns` (app.py lines 188-251).  Intermediates that feed
only `logger.info` (`total_variance`, `lip_width_variance`,
`avg_shape_change`, `frequency_power`) are omitted: they raise nothing and
influence nothing.  Extraction of the x/y planes raises an IndexError when
`shape[2] < 2`, which the broad `except` turns into `"Error in analysis"`;
`shape[1] == 0` yields `"No speech detected"`.  The result is `none` exactly
when `phonemes_to_text` returns `None`. -/
def analyze_lip_patterns (s : ℚ → ℚ) (t : Tensor3) : Option String :=
  if 0 < dim1 t then
    if 2 ≤ dim2 t then
      let xs := flatPlane t 0
      let ys := flatPlane t 1
      let lov := npVarQ ys
      let mi := movementIntensity s t
      let ph := detect_phonemes s t xs ys
      phonemes_to_text ph mi lov
    else some "Error in analysis"
  else some "No speech detected"

/-- `predict_text` (app.py lines 151-186): the transformer model is never
loaded (`load_model` always leaves `model = None`), so the function always
falls through to `analyze_lip_patterns`. -/
def predict_text (s : ℚ → ℚ) (t : Tensor3) : Option String := analyze_lip_patterns s t

/-- `calculate_confidence` (app.py lines 479-510): the clamped linear
combination of `total_variance`, `movement_intensity` and
`lip_opening_variance`.  The internal `except` (returning 0.1) is
unreachable: empty-slice means are NaN warnings, not exceptions. -/
def calculate_confidence (s : ℚ → ℚ) (t : Tensor3) : PF :=
  let tv := npMeanP (frameVarList t).flatten
  let mi := movementIntensity s t
  let lov := if 2 ≤ dim2 t then npVarQ (flatPlane t 1) else PF.num 0
  pyMin (PF.num 1)
    (pyMax (PF.num (1/10))
      (PF.add (PF.add (PF.mul tv (PF.num 100)) (PF.mul mi (PF.num 50)))
        (PF.mul lov (PF.num 200))))

/-- The response of the `/predict` endpoint: text and confidence.
(`processing_time` is a serving-layer wall-clock measurement and is outside
the embedded core.) -/
structure LipReadResponse where
  text : String
  confidence : PF
deriving DecidableEq

/-- Abbreviated message of the pydantic ValidationError raised when
`LipReadResponse` is constructed with `text=None`. -/
def pydanticErrMsg : String := "1 validation error for LipReadResponse"

/-- `predict_lip_reading` (app.py lines 441-477): preprocess, predict text,
compute confidence, build the response.  Any exception (a preprocessing
error, or the pydantic ValidationError when the predicted text is `None`)
is caught and converted into a zero-confidence error response. -/
def predict_lip_reading (s : ℚ → ℚ) (l : List Frame) : LipReadResponse :=
  match preprocess_landmarks s l with
  | Except.error e => ⟨"Error processing landmarks: " ++ e.msg, PF.num 0⟩
  | Except.ok t =>
    let conf := calculate_confidence s t
    match predict_text s t with
    | none => ⟨"Error processing landmarks: " ++ pydanticErrMsg, PF.num 0⟩
    | some txt => ⟨txt, conf⟩

/-! ## app_lightweight.py -/

/-- The literal `lip_landmarks_indices` list of `analyze_lip_movement`
(app_lightweight.py lines 46-53), duplicates included: fancy indexing with a
duplicated index list duplicates the selected points. -/
def lwLipIdx : List ℕ :=
  [61, 84, 17, 314, 405, 320, 307, 375, 321, 308, 324, 318,
   13, 82, 81, 80, 78, 95, 88, 178, 87, 14, 317, 402, 318, 324, 308, 415, 310, 311, 312,
   269, 270, 267, 271, 272, 407, 408, 409, 410, 415, 310, 311, 312, 13, 82, 81, 80, 78, 95, 88]

/-- Whether `np.array(landmarks_data)` yields a numeric 3-D array: the data
must be fully rectangular. -/
def isRect (data : List Frame) : Bool :=
  let n := data.headI.length
  let d := data.headI.headI.length
  data.all (fun fr => decide (fr.length = n) && fr.all (fun p => decide (p.length = d)))

/-- The movement-metrics dictionary of `calculate_movement_metrics`
(app_lightweight.py lines 80-126).  The `frame_variance` array entry is only
consumed through its mean and is represented by `avgFrameVar`. -/
structure LWMetrics where
  totalVar : PF
  avgFrameVar : PF
  mi : PF
  maxMv : PF
  mc : PF
  lov : PF
  lorange : PF
  ofreq : PF
  hvar : PF
  hrange : PF

/-- `calculate_movement_metrics` (app_lightweight.py lines 80-126).  Every
degenerate shape is guarded with an explicit 0 except the aggregate extrema:
`np.max` / `np.min` of an empty slice raise a ValueError (modelled as
`Except.error`), which the caller's broad `except` absorbs; at the actual
call site the slices are nonempty. -/
def calculate_movement_metrics (s : ℚ → ℚ) (lip : Tensor3) : Except Unit LWMetrics :=
  let totalVar := npVarQ lip.flatten.flatten
  let avgFrameVar := npMeanP (frameVarList lip).flatten
  let norms := ((tdiff0 lip).map (rowNorms s)).flatten
  match (if 1 < lip.length then qMax? norms else some 0) with
  | none => Except.error ()
  | some mx =>
    let mi := if 1 < lip.length then npMeanQ norms else PF.num 0
    let maxMv := if 1 < lip.length then PF.num mx else PF.num 0
    let mc := if 1 < lip.length then npStdP s (norms.map PF.num) else PF.num 0
    let ys := flatPlane lip 1
    match (if 2 ≤ dim2 lip then qMax? ys else some 0),
          (if 2 ≤ dim2 lip then qMin? ys else some 0) with
    | some ymx, some ymn =>
      let lov := if 2 ≤ dim2 lip then npVarQ ys else PF.num 0
      let lorange := if 2 ≤ dim2 lip then PF.num (ymx - ymn) else PF.num 0
      let ofreq :=
        if 2 ≤ dim2 lip then
          (if 2 < lip.length then
            npMeanQ ((List.zipWith (List.zipWith (fun a b => |a - b|))
              ((lip.map (fun m => m.map (fun r => r.getD 1 0))).drop 1)
              (lip.map (fun m => m.map (fun r => r.getD 1 0)))).flatten)
          else PF.num 0)
        else PF.num 0
      let xs := flatPlane lip 0
      match (if 1 ≤ dim2 lip then qMax? xs else some 0),
            (if 1 ≤ dim2 lip then qMin? xs else some 0) with
      | some xmx, some xmn =>
        Except.ok
          ⟨totalVar, avgFrameVar, mi, maxMv, mc, lov, lorange, ofreq,
           (if 1 ≤ dim2 lip then npVarQ xs else PF.num 0),
           (if 1 ≤ dim2 lip then PF.num (xmx - xmn) else PF.num 0)⟩
      | _, _ => Except.error ()
    | _, _ => Except.error ()

/-- `recognize_speech_pattern` (app_lightweight.py lines 128-181): the
threshold cascade over the metrics dictionary. -/
def recognize_speech_pattern (m : LWMetrics) : String :=
  if PF.flt (PF.num (1/200)) m.mi && PF.flt (PF.num (1/500)) m.lov &&
     PF.flt (PF.num (1/1000)) m.ofreq then
    if PF.flt (PF.num (1/1000)) m.mc then "Hello world, this is a test." else "Hello world"
  else if PF.flt (PF.num (1/500)) m.mi && PF.flt (PF.num (1/1000)) m.lov then
    if PF.flt (PF.num (1/2000)) m.ofreq then "Hello world" else "Hello"
  else if PF.flt (PF.num (1/2000)) m.mi && PF.flt (PF.num (3/10000)) m.lov then "Hello"
  else if PF.flt (PF.num (1/10000)) m.totalVar then "Hi"
  else "No speech detected"

/-- `analyze_fallback_patterns` (app_lightweight.py lines 183-200): variance
thresholds over the full landmark array.  Its own `except` is unreachable
(the body raises nothing: empty-slice means are NaN warnings). -/
def analyze_fallback_patterns (arr : Tensor3) : String :=
  let tv := npVarQ arr.flatten.flatten
  let afv := npMeanP (frameVarList arr).flatten
  if PF.flt (PF.num (1/500)) tv then "Hello world, this is a test."
  else if PF.flt (PF.num (1/1000)) afv then "Hello world"
  else if PF.flt (PF.num (1/2000)) tv then "Hello"
  else "Hi"

/-- The non-fallback branch of `analyze_lip_movement` (app_lightweight.py
lines 63-69): slice the (duplicate-preserving) valid lip indices out of
every frame, compute the movement metrics and classify; an exception inside
(empty aggregate slice) is absorbed by the caller's broad `except` into the
safe fallback text. -/
def lipSliceAnalysis (s : ℚ → ℚ) (data : List Frame) : String :=
  match calculate_movement_metrics s
      (data.map (fun fr =>
        (lwLipIdx.filter (fun i => decide (i < data.headI.length))).map
          (fun i => fr.getD i []))) with
  | Except.error _ => "Hello world, this is a test."
  | Except.ok m => recognize_speech_pattern m

/-- `analyze_lip_movement` (app_lightweight.py lines 33-78): empty input is
answered directly; a non-rectangular input makes `np.array` raise, which the
broad `except` maps to the safe fallback text; when no lip index is below the
per-frame point count, the full-frame fallback analysis runs; otherwise the
lip slice is taken and classified (`lipSliceAnalysis`). -/
def analyze_lip_movement (s : ℚ → ℚ) (data : List Frame) : String :=
  if data.isEmpty then "No movement detected"
  else if isRect data then
    if (lwLipIdx.filter (fun i => decide (i < data.headI.length))).isEmpty then
      analyze_fallback_patterns data
    else lipSliceAnalysis s data
  else "Hello world, this is a test."

/-- The full-mesh test of the frame loop, as a Boolean predicate. -/
def isFullMesh (f : Frame) : Bool := decide (468 ≤ f.length)

/-! ## Concrete inputs used by witnesses and counterexamples -/

deriving instance DecidableEq for Except

/-- A concrete square-root parameter for closed evaluations at inputs whose
landmark values are all zero: every radicand arising in such a run is 0,
which `qSqrt` handles exactly without consulting the parameter, so the value
of `sq0` is never used and any choice is faithful. -/
def sq0 : ℚ → ℚ := fun _ => 0

/-- A concrete square-root parameter for the C4 counterexample input: the
only nonzero radicand arising in that run is the lip-array variance, which
is exactly 1 by construction, and `sq1 1 = 1` is the exact square root, so
the run agrees with the real floating-point execution (which divides by
`np.std = 1.0`). -/
def sq1 : ℚ → ℚ := fun q => if q = 1 then 1 else 0

/-- A full-mesh frame of 468 one-coordinate zero points. -/
def zeroFrame : Frame := List.replicate 468 [0]

/-- The tensor `preprocess_landmarks` produces from `[zeroFrame]`. -/
def zeroTensor : Tensor3 := [List.replicate 50 (List.replicate 27 0)]

/-- The landmark values of the C4 counterexample frame, by point index.  The
27 lip values sum to 0 (so centering leaves them unchanged) and their
squares sum to exactly 27 (via 13499996 = 3674^2 + 30^2 + 28^2 + 6^2), so
the variance is exactly 1 and `np.std` is exactly 1.0: the scaling division
is performed and divides by 1.  The points at the first two positions of
`lipIdx` (indices 13 and 14, feeding feature columns 0 and 1) are 0 and
1/500, so the processed tensor has `lip_width_range = 0` and
`lip_opening_range = 1/500 = 0.002`: every cascade rule misses,
`detect_phonemes` falls back to `[H]`, and `phonemes_to_text` returns
`None`. -/
def c4Val (i : ℕ) : ℚ :=
  if i = 14 then 1/500 else if i = 17 then -(1:ℚ)/500
  else if i = 402 then 1837/500 else if i = 405 then -(1837:ℚ)/500
  else if i = 178 then 3/100 else if i = 307 then -(3:ℚ)/100
  else if i = 308 then 7/250 else if i = 310 then -(7:ℚ)/250
  else if i = 311 then 3/500 else if i = 312 then -(3:ℚ)/500
  else 0

/-- The C4 counterexample frame: 468 one-coordinate points valued by
`c4Val`. -/
def c4Frame : Frame := (List.range 468).map (fun i => [c4Val i])

/-- The first processed row that `preprocess_landmarks` produces from
`[c4Frame]`: the lip values in `lipIdx` order (centering subtracts the mean
0 and scaling divides by the standard deviation 1). -/
def c4Row : List ℚ :=
  [0, 1/500, -(1:ℚ)/500, 1837/500, -(1837:ℚ)/500, 3/100, -(3:ℚ)/100,
   7/250, -(7:ℚ)/250, 3/500, -(3:ℚ)/500, 0, 0, 0, 0, 0, 0, 0, 0, 0, 0, 0,
   0, 0, 0, 0, 0]

/-- The tensor `preprocess_landmarks` produces from `[c4Frame]`. -/
def c4Tensor : Tensor3 := [c4Row :: List.replicate 49 (List.replicate 27 (0:ℚ))]

/-- A frame one point short of the full mesh. -/
def frame467 : Frame := List.replicate 467 ([0] : List ℚ)

/-- 51 frames whose only qualifying (full-mesh) frame is the 51st. -/
def bigInput : List Frame := List.replicate 50 ([] : Frame) ++ [zeroFrame]

/-- One rectangular frame of 14 one-coordinate points: the smallest point
count at which some lip index (13) is valid in app_lightweight. -/
def lw14 : List Frame := [List.replicate 14 ([0] : List ℚ)]

/-! ## Helper lemmas -/

theorem PF.nan_mul (x : PF) : PF.mul PF.nan x = PF.nan := by cases x <;> rfl

theorem PF.add_nan (x : PF) : PF.add x PF.nan = PF.nan := by cases x <;> rfl

theorem PF.nan_add (x : PF) : PF.add PF.nan x = PF.nan := by cases x <;> rfl

theorem PF.flt_nan (x : PF) : PF.flt x PF.nan = false := by cases x <;> rfl

theorem pyMax_num (a b : ℚ) :
    pyMax (PF.num a) (PF.num b) = if a < b then PF.num b else PF.num a := by
  simp [pyMax, PF.flt]

theorem pyMin_num (a b : ℚ) :
    pyMin (PF.num a) (PF.num b) = if b < a then PF.num b else PF.num a := by
  simp [pyMin, PF.flt]

theorem pyMax_nan (x : PF) : pyMax x PF.nan = x := by
  simp [pyMax, PF.flt_nan]

/-- The clamp `min(1.0, max(0.1, x))` always yields a finite value in
[0.1, 1], for finite and NaN arguments alike. -/
theorem clamp_mem (x : PF) :
    ∃ c : ℚ, pyMin (PF.num 1) (pyMax (PF.num (1/10)) x) = PF.num c ∧
      (1:ℚ)/10 ≤ c ∧ c ≤ 1 := by
  cases x with
  | nan =>
    refine ⟨1/10, ?_, le_refl _, by norm_num⟩
    rw [pyMax_nan, pyMin_num, if_pos (by norm_num : (1:ℚ)/10 < 1)]
  | num q =>
    rw [pyMax_num]
    by_cases h : (1:ℚ)/10 < q
    · rw [if_pos h, pyMin_num]
      by_cases h2 : q < 1
      · exact ⟨q, by rw [if_pos h2], le_of_lt h, le_of_lt h2⟩
      · exact ⟨1, by rw [if_neg h2], by norm_num, le_refl 1⟩
    · rw [if_neg h, pyMin_num, if_pos (by norm_num : (1:ℚ)/10 < 1)]
      exact ⟨1/10, rfl, le_refl _, by norm_num⟩

/-- A single-batch tensor has no frame-to-frame differences, so the shared
`movement_intensity` expression is the mean of an empty slice: NaN. -/
theorem movementIntensity_single (s : ℚ → ℚ) (m : Tensor2) :
    movementIntensity s [m] = PF.nan := by
  simp [movementIntensity, tdiff0, npMeanQ]

/-- On a single-batch tensor, the NaN `movement_intensity` term poisons the
whole linear combination and `max(0.1, NaN)` evaluates to 0.1: the clamped
confidence is exactly 0.1 whatever the landmark values. -/
theorem calculate_confidence_single (s : ℚ → ℚ) (m : Tensor2) :
    calculate_confidence s [m] = PF.num (1/10) := by
  unfold calculate_confidence
  rw [movementIntensity_single]
  simp only [PF.nan_mul, PF.add_nan, PF.nan_add, pyMax_nan, pyMin_num]
  norm_num

/-- A successful preprocessing result is always a batch of exactly one
matrix (`unsqueeze(0)` on the stacked 2-D tensor). -/
theorem preprocess_ok_single {s : ℚ → ℚ} {l : List Frame} {t : Tensor3}
    (h : preprocess_landmarks s l = Except.ok t) : ∃ m, t = [m] := by
  unfold preprocess_landmarks at h
  cases hb : buildFrames s l with
  | error e => rw [hb] at h; exact absurd h (by simp)
  | ok fs =>
    rw [hb] at h
    by_cases he : fs.isEmpty
    · simp [he] at h
    · simp only [he, if_false, Bool.false_eq_true] at h
      unfold stackTensor at h
      cases hf : (padTruncate fs).find? (fun r => decide (r.length ≠ (padTruncate fs).headI.length)) with
      | some r => rw [hf] at h; exact absurd h (by simp)
      | none =>
        rw [hf] at h
        exact ⟨padTruncate fs, (Except.ok.injEq _ _ |>.mp h).symm⟩


/-- The frame loop only reads qualifying (full-mesh) frames: filtering the
input down to them changes nothing, whatever the loop state. -/
theorem buildFramesFrom_filter (s : ℚ → ℚ) (l : List Frame) :
    ∀ prev, buildFramesFrom s prev l = buildFramesFrom s prev (l.filter isFullMesh) := by
  induction l with
  | nil => intro prev; rfl
  | cons f rest ih =>
    intro prev
    by_cases hq : 468 ≤ f.length
    · rw [List.filter_cons_of_pos (by simp [isFullMesh, hq])]
      simp only [buildFramesFrom, if_pos hq, ih]
    · rw [List.filter_cons_of_neg (by simp [isFullMesh, hq])]
      simp only [buildFramesFrom, if_neg hq]
      exact ih prev

theorem getD_mem {α : Type} (l : List α) (i : ℕ) (d : α) (h : i < l.length) :
    l.getD i d ∈ l := by
  induction l generalizing i with
  | nil => simp at h
  | cons a t ih =>
    cases i with
    | zero => simp
    | succ j =>
      rw [List.getD_cons_succ]
      exact List.mem_cons_of_mem a (ih j (by simpa using h))

/-- `lipIdx` (the fixed CPython iteration order) is a permutation of the
deduplicated filtered literal list, i.e. exactly the set
`set([i for i in lip_indices if i < 468])`. -/
theorem lipIdx_is_dedup :
    lipIdx.Perm (lipIdxRaw.filter (fun i => decide (i < 468))).dedup := by
  decide

theorem lipIdx_mem_lt {i : ℕ} (h : i ∈ lipIdx) : i < 468 := by
  have hall : ∀ j ∈ lipIdx, j < 468 := by decide
  exact hall i h

/-- On a full-mesh frame the validity filter keeps every lip index. -/
theorem lipPoints_full (f : Frame) (h : 468 ≤ f.length) :
    lipPoints f = lipIdx.map (fun i => f.getD i []) := by
  unfold lipPoints
  congr 1
  apply List.filter_eq_self.mpr
  intro i hi
  exact decide_eq_true (lt_of_lt_of_le (lipIdx_mem_lt hi) h)

/-- On a full-mesh frame with uniform point dimension, the extracted lip
region has exactly 27 points of that dimension. -/
theorem lipPoints_shape (f : Frame) (d : ℕ) (h : 468 ≤ f.length)
    (hp : ∀ p ∈ f, p.length = d) :
    (lipPoints f).length = 27 ∧ ∀ p ∈ lipPoints f, p.length = d := by
  rw [lipPoints_full f h]
  constructor
  · rw [List.length_map]; decide
  · intro p hp'
    rw [List.mem_map] at hp'
    obtain ⟨i, hi, rfl⟩ := hp'
    exact hp _ (getD_mem f i [] (lt_of_lt_of_le (lipIdx_mem_lt hi) h))

theorem flatten_length_of_uniform (L : List (List ℚ)) (d : ℕ)
    (h : ∀ x ∈ L, x.length = d) : L.flatten.length = L.length * d := by
  rw [List.length_flatten]
  rw [show L.map List.length = List.replicate L.length d from
    List.eq_replicate_iff.mpr ⟨by rw [List.length_map], by
      intro b hb; rw [List.mem_map] at hb; obtain ⟨x, hx, rfl⟩ := hb; exact h x hx⟩]
  rw [List.sum_replicate, smul_eq_mul]

/-- Normalisation and flattening succeeds on a nonempty set of points of
uniform dimension `d` and yields a vector of length `count * d`. -/
theorem normFlat_ok (s : ℚ → ℚ) (pts : List (List ℚ)) (d : ℕ)
    (h0 : pts ≠ []) (hd : ∀ p ∈ pts, p.length = d) :
    ∃ v, normFlat s pts = Except.ok v ∧ v.length = pts.length * d := by
  have hd0 : pts.headI.length = d := by
    cases pts with
    | nil => exact absurd rfl h0
    | cons a t => exact hd a (by simp)
  unfold normFlat
  rw [if_pos (List.all_eq_true.mpr (fun p hp => decide_eq_true (by rw [hd p hp, hd0])))]
  refine ⟨_, rfl, ?_⟩
  have hcen : ∀ x ∈ pts.map (fun p =>
      (List.range pts.headI.length).map
        (fun j => p.getD j 0 - qMean (pts.map (fun p => p.getD j 0)))), x.length = d := by
    intro x hx
    rw [List.mem_map] at hx
    obtain ⟨p, hp, rfl⟩ := hx
    rw [List.length_map, List.length_range, hd0]
  by_cases hs : 0 < qSqrt s (qVar (pts.map (fun p =>
      (List.range pts.headI.length).map
        (fun j => p.getD j 0 - qMean (pts.map (fun p => p.getD j 0))))).flatten)
  · rw [if_pos hs]
    rw [flatten_length_of_uniform _ d (by
      intro x hx
      rw [List.mem_map] at hx
      obtain ⟨y, hy, rfl⟩ := hx
      rw [List.length_map]
      exact hcen y hy)]
    simp
  · rw [if_neg hs]
    rw [flatten_length_of_uniform _ d hcen]
    simp

/-- A qualifying frame with uniform point dimension normalises successfully
to a flat vector of length `27 * d`. -/
theorem qualFlat (s : ℚ → ℚ) (f : Frame) (d : ℕ) (h468 : 468 ≤ f.length)
    (hp : ∀ p ∈ f, p.length = d) :
    ∃ v, normFlat s (lipPoints f) = Except.ok v ∧ v.length = 27 * d ∧
      (lipPoints f).isEmpty = false := by
  obtain ⟨h27, hall⟩ := lipPoints_shape f d h468 hp
  have hne : lipPoints f ≠ [] := by
    intro hc; rw [hc] at h27; simp at h27
  obtain ⟨v, hv, hlen⟩ := normFlat_ok s (lipPoints f) d hne hall
  exact ⟨v, hv, by rw [hlen, h27], by simpa [List.isEmpty_iff] using hne⟩

theorem bff_cons_none (s : ℚ → ℚ) (f : Frame) (rest : List Frame) (v : List ℚ)
    (hq : 468 ≤ f.length) (hne : (lipPoints f).isEmpty = false)
    (hv : normFlat s (lipPoints f) = Except.ok v) :
    buildFramesFrom s none (f :: rest) =
      match buildFramesFrom s (some v) rest with
      | Except.error e => Except.error e
      | Except.ok tail => Except.ok (v :: tail) := by
  simp only [buildFramesFrom, hq, if_true, hne, Bool.false_eq_true, if_false, hv]

theorem bff_cons_some_eq (s : ℚ → ℚ) (f : Frame) (rest : List Frame) (p v : List ℚ)
    (hq : 468 ≤ f.length) (hne : (lipPoints f).isEmpty = false)
    (hv : normFlat s (lipPoints f) = Except.ok v) (hlen : v.length = p.length) :
    buildFramesFrom s (some p) (f :: rest) =
      match buildFramesFrom s (some (v ++ List.zipWith (fun x y => x - y) v p)) rest with
      | Except.error e => Except.error e
      | Except.ok tail => Except.ok ((v ++ List.zipWith (fun x y => x - y) v p) :: tail) := by
  simp only [buildFramesFrom, hq, if_true, hne, Bool.false_eq_true, if_false, hv,
    npSub1, if_pos hlen]

theorem bff_cons_some_err (s : ℚ → ℚ) (f : Frame) (rest : List Frame) (p v : List ℚ)
    (hq : 468 ≤ f.length) (hne : (lipPoints f).isEmpty = false)
    (hv : normFlat s (lipPoints f) = Except.ok v)
    (h1 : v.length ≠ p.length) (h2 : p.length ≠ 1) (h3 : v.length ≠ 1) :
    buildFramesFrom s (some p) (f :: rest) =
      Except.error (PErr.broadcast v.length p.length) := by
  simp only [buildFramesFrom, hq, if_true, hne, Bool.false_eq_true, if_false, hv,
    npSub1, if_neg h1, if_neg h2, if_neg h3]

/-- With three or more qualifying frames of uniform positive point dimension,
the frame loop fails at the third one: its flat width `27 d` cannot be
subtracted from the previous enhanced frame of width `54 d`. -/
theorem bff_three_error (s : ℚ → ℚ) (d : ℕ) (hd : 0 < d) (f1 f2 f3 : Frame)
    (rest : List Frame)
    (h1 : 468 ≤ f1.length) (h2 : 468 ≤ f2.length) (h3 : 468 ≤ f3.length)
    (hp1 : ∀ p ∈ f1, p.length = d) (hp2 : ∀ p ∈ f2, p.length = d)
    (hp3 : ∀ p ∈ f3, p.length = d) :
    buildFramesFrom s none (f1 :: f2 :: f3 :: rest) =
      Except.error (PErr.broadcast (27 * d) (54 * d)) := by
  obtain ⟨v1, hv1, hl1, hne1⟩ := qualFlat s f1 d h1 hp1
  obtain ⟨v2, hv2, hl2, hne2⟩ := qualFlat s f2 d h2 hp2
  obtain ⟨v3, hv3, hl3, hne3⟩ := qualFlat s f3 d h3 hp3
  rw [bff_cons_none s f1 (f2 :: f3 :: rest) v1 h1 hne1 hv1]
  rw [bff_cons_some_eq s f2 (f3 :: rest) v1 v2 h2 hne2 hv2 (by rw [hl2, hl1])]
  have helen : (v2 ++ List.zipWith (fun x y => x - y) v2 v1).length = 54 * d := by
    rw [List.length_append, List.length_zipWith, hl2, hl1]
    omega
  rw [bff_cons_some_err s f3 rest _ v3 h3 hne3 hv3
    (by rw [hl3, helen]; omega) (by rw [helen]; omega) (by rw [hl3]; omega)]
  simp [hl3, helen]

/-- With exactly two qualifying frames of uniform positive point dimension,
the frame loop succeeds and produces widths `27 d` and `54 d`. -/
theorem bff_two_ok (s : ℚ → ℚ) (d : ℕ) (f1 f2 : Frame)
    (h1 : 468 ≤ f1.length) (h2 : 468 ≤ f2.length)
    (hp1 : ∀ p ∈ f1, p.length = d) (hp2 : ∀ p ∈ f2, p.length = d) :
    ∃ v1 v2, buildFramesFrom s none [f1, f2] = Except.ok [v1, v2] ∧
      v1.length = 27 * d ∧ v2.length = 54 * d := by
  obtain ⟨v1, hv1, hl1, hne1⟩ := qualFlat s f1 d h1 hp1
  obtain ⟨v2, hv2, hl2, hne2⟩ := qualFlat s f2 d h2 hp2
  refine ⟨v1, v2 ++ List.zipWith (fun x y => x - y) v2 v1, ?_, hl1, ?_⟩
  · rw [bff_cons_none s f1 [f2] v1 h1 hne1 hv1]
    rw [bff_cons_some_eq s f2 [] v1 v2 h2 hne2 hv2 (by rw [hl2, hl1])]
    rfl
  · rw [List.length_append, List.length_zipWith, hl2, hl1]
    omega

theorem stackTensor_second_mismatch (v1 v2 : List ℚ) (rest : List (List ℚ))
    (h : v2.length ≠ v1.length) :
    stackTensor (v1 :: v2 :: rest) = Except.error (PErr.ragged v1.length v2.length) := by
  unfold stackTensor
  rw [List.find?_cons_of_neg _ (by simp), List.find?_cons_of_pos _ (by simp [h])]
  rfl

theorem padTruncate_two (v1 v2 : List ℚ) :
    padTruncate [v1, v2] = v1 :: v2 :: List.replicate 48 (zeroLike v1) := by
  unfold padTruncate
  rw [if_neg (by simp)]
  rfl

theorem preprocess_of_buildFrames_error (s : ℚ → ℚ) (l : List Frame) (e : PErr)
    (h : buildFrames s l = Except.error e) :
    preprocess_landmarks s l = Except.error e := by
  unfold preprocess_landmarks
  rw [h]

theorem predict_of_preprocess_error (s : ℚ → ℚ) (l : List Frame) (e : PErr)
    (h : preprocess_landmarks s l = Except.error e) :
    predict_lip_reading s l = ⟨"Error processing landmarks: " ++ e.msg, PF.num 0⟩ := by
  unfold predict_lip_reading
  rw [h]

theorem buildFrames_filter (s : ℚ → ℚ) (l : List Frame) :
    buildFrames s l = buildFrames s (l.filter isFullMesh) := by
  unfold buildFrames
  exact buildFramesFrom_filter s l none

/-- When no frame qualifies, the frame loop produces nothing. -/
theorem bff_no_qual (s : ℚ → ℚ) (l : List Frame) (h : ∀ f ∈ l, f.length < 468) :
    ∀ prev, buildFramesFrom s prev l = Except.ok [] := by
  induction l with
  | nil => intro prev; rfl
  | cons f rest ih =>
    intro prev
    have hf : ¬ 468 ≤ f.length := by
      have := h f (by simp)
      omega
    simp only [buildFramesFrom, if_neg hf]
    exact ih (fun g hg => h g (List.mem_cons_of_mem f hg)) prev

theorem preprocess_noValid (s : ℚ → ℚ) (l : List Frame)
    (h : buildFrames s l = Except.ok []) :
    preprocess_landmarks s l = Except.error PErr.noValid := by
  unfold preprocess_landmarks
  rw [h]
  rfl

/-- In app.py a frame below the full-mesh count contributes nothing at all to
the processed sequence. -/
theorem buildFrames_discard (s : ℚ → ℚ) (l1 l2 : List Frame) (f : Frame)
    (h : f.length < 468) :
    buildFrames s (l1 ++ f :: l2) = buildFrames s (l1 ++ l2) := by
  rw [buildFrames_filter s (l1 ++ f :: l2), buildFrames_filter s (l1 ++ l2)]
  congr 1
  rw [List.filter_append, List.filter_append,
    List.filter_cons_of_neg (by simp [isFullMesh]; omega)]

theorem lwLipIdx_ge : ∀ j ∈ lwLipIdx, 13 ≤ j := by decide

theorem withFallback_ne_nil (phs : List String) (lor lwr : ℚ) :
    withFallback phs lor lwr ≠ [] := by
  unfold withFallback
  split
  · simp
  · next h => simpa [List.isEmpty_iff] using h

theorem detectCore_ne_nil (s : ℚ → ℚ) (t : Tensor3) (lor lwr : ℚ) :
    detectCore s t lor lwr ≠ [] := by
  unfold detectCore
  exact withFallback_ne_nil _ _ _

/-! ## Claim theorems -/

/-- Claim C1: for every landmark sequence on which prediction succeeds (no
error branch taken: preprocessing yields a tensor and the predicted text
validates as a string), the confidence returned by the core is in the closed
interval [0.1, 1.0]; it is the clamp `min(1.0, max(0.1, linear combination))`
of `calculate_confidence`, so it is never negative, never below 0.1 and never
above 1.0. -/
theorem confidence_range_on_success (s : ℚ → ℚ) (l : List Frame) (t : Tensor3)
    (txt : String) (h1 : preprocess_landmarks s l = Except.ok t)
    (h2 : predict_text s t = some txt) :
    ∃ c : ℚ, (predict_lip_reading s l).confidence = PF.num c ∧
      (1:ℚ)/10 ≤ c ∧ c ≤ 1 := by
  unfold predict_lip_reading
  rw [h1]
  simp only [h2]
  exact clamp_mem _

theorem confidence_range_on_success_witness :
    ∃ c : ℚ, (predict_lip_reading sq0 [zeroFrame]).confidence = PF.num c ∧
      (1:ℚ)/10 ≤ c ∧ c ≤ 1 :=
  confidence_range_on_success sq0 [zeroFrame] zeroTensor "Ah" (by decide) (by decide)

/-- Claim C2: the pipeline is deterministic; identical landmark-sequence
inputs give bit-identical (text, confidence) responses, for any two runs
(the embedded pipeline is a pure function of its input; the only
serving-layer quantity excluded is `processing_time`). -/
theorem pipeline_deterministic (s : ℚ → ℚ) (l1 l2 : List Frame) (h : l1 = l2) :
    predict_lip_reading s l1 = predict_lip_reading s l2 := by
  rw [h]

theorem pipeline_deterministic_witness :
    predict_lip_reading sq0 [zeroFrame] = predict_lip_reading sq0 [zeroFrame] :=
  pipeline_deterministic sq0 [zeroFrame] [zeroFrame] rfl

/-- Claim C4 (counterexample): an input on which `/predict` reaches
`calculate_confidence` (preprocessing succeeds) but returns confidence 0.0,
not 0.1.  The lip values of `c4Frame` sum to 0 and have variance exactly 1,
so centering subtracts 0 and the scaling division (performed, since
`np.std = 1.0 > 0`) divides by 1; `sq1` is the exact square root at the one
nonzero radicand of this run, so the evaluation agrees with the real
floating-point execution.  The processed tensor has lip opening range
exactly 0.002, every cascade rule misses, the detected category list is the
fallback `[H]`, `phonemes_to_text` falls off the end of its
`len(phonemes) == 1` branch and returns `None`, building the response raises
a ValidationError, and the error branch answers with confidence exactly
0.0. -/
theorem fallthrough_text_gives_zero_confidence :
    preprocess_landmarks sq1 [c4Frame] = Except.ok c4Tensor ∧
      (predict_lip_reading sq1 [c4Frame]).confidence = PF.num 0 ∧
      (predict_lip_reading sq1 [c4Frame]).confidence ≠ PF.num (1/10) := by
  refine ⟨by decide, by decide, by decide⟩

/-- Claim C4 (amended): for every input on which `/predict` succeeds with a
normal response (preprocessing succeeds and the predicted text validates as
a string), the returned confidence is exactly 0.1: the batch dimension stays
1, `np.diff` along axis 0 is empty, `movement_intensity` is NaN, the linear
combination is NaN and `min(1.0, max(0.1, NaN))` is 0.1.  (When the text
synthesizer falls through with `None`, `calculate_confidence` is still
reached but the response fails validation and the error branch returns 0.0
instead.) -/
theorem success_confidence_exactly_tenth (s : ℚ → ℚ) (l : List Frame)
    (t : Tensor3) (txt : String) (h1 : preprocess_landmarks s l = Except.ok t)
    (h2 : predict_text s t = some txt) :
    (predict_lip_reading s l).confidence = PF.num (1/10) := by
  obtain ⟨m, rfl⟩ := preprocess_ok_single h1
  unfold predict_lip_reading
  rw [h1]
  simp only [h2]
  exact calculate_confidence_single s m

theorem success_confidence_exactly_tenth_witness :
    (predict_lip_reading sq0 [zeroFrame]).confidence = PF.num (1/10) :=
  success_confidence_exactly_tenth sq0 [zeroFrame] zeroTensor "Ah" (by decide) (by decide)

/-- Claim C5: in app.py the `movement_intensity` metric is not guarded: on
the always-taken success path (batch dimension 1 after `unsqueeze`) it is the
mean of an empty difference slice, i.e. NaN, instead of the guarded 0 that
the spec requires (and that app_lightweight's `calculate_movement_metrics`
implements).  Evaluated at the failing input: a single all-zero full-mesh
frame. -/
theorem movement_intensity_is_nan_on_success_path :
    preprocess_landmarks sq0 [zeroFrame] = Except.ok zeroTensor ∧
      movementIntensity sq0 zeroTensor = PF.nan := by
  constructor
  · decide
  · decide

/-- Claim C8: for every input in which no frame yields valid lip points
(zero frames, or only frames below the 468-point full mesh), preprocessing
raises `No valid lip landmarks found` and the handler returns the
zero-confidence error response; the embedded handler is a total function, so
no exception crosses the serving boundary. -/
theorem no_valid_frames_error_response (s : ℚ → ℚ) (l : List Frame)
    (h : ∀ f ∈ l, f.length < 468) :
    predict_lip_reading s l =
      ⟨"Error processing landmarks: No valid lip landmarks found", PF.num 0⟩ := by
  have hb : buildFrames s l = Except.ok [] := bff_no_qual s l h none
  have hp : preprocess_landmarks s l = Except.error PErr.noValid :=
    preprocess_noValid s l hb
  exact predict_of_preprocess_error s l PErr.noValid hp

theorem no_valid_frames_error_response_witness :
    predict_lip_reading sq0 [[], frame467] =
      ⟨"Error processing landmarks: No valid lip landmarks found", PF.num 0⟩ :=
  no_valid_frames_error_response sq0 [[], frame467] (by decide)

/-- Claim C10: for every input the heuristic classifier returns a non-empty
category list and no exception escapes: empty aggregate slices are the only
exception source and the broad `except` converts them into the fixed default
list `[H, E, L, L, O]`; when no threshold rule fires, the fallback assigns
`H` if `lip_opening_range > 0.001`, else `M` if `lip_width_range > 0.001`,
else the hard-coded default `A`. -/
theorem detect_phonemes_nonempty (s : ℚ → ℚ) (t : Tensor3) (xs ys : List ℚ) :
    detect_phonemes s t xs ys ≠ [] := by
  unfold detect_phonemes
  cases qMax? ys with
  | none => simp
  | some ymax =>
    cases qMin? ys with
    | none => simp
    | some ymin =>
      cases qMax? xs with
      | none => simp
      | some xmax =>
        cases qMin? xs with
        | none => simp
        | some xmin => simpa using detectCore_ne_nil s t (ymax - ymin) (xmax - xmin)

/-- Claim C6 (counterexample): with two qualifying frames the processed
sequence is `[width 27, width 54]` and the padding rows appended by
`np.zeros_like(processed_frames[0])` have the width of the FIRST processed
frame (27), not of the last real frame (54). -/
theorem padding_width_is_first_frame_width :
    buildFrames sq0 [zeroFrame, zeroFrame] =
      Except.ok [List.replicate 27 (0:ℚ), List.replicate 54 (0:ℚ)] ∧
    padTruncate [List.replicate 27 (0:ℚ), List.replicate 54 (0:ℚ)] =
      [List.replicate 27 (0:ℚ), List.replicate 54 (0:ℚ)] ++
        List.replicate 48 (List.replicate 27 (0:ℚ)) ∧
    (List.replicate 48 (List.replicate 27 (0:ℚ))).headI.length ≠
      (List.replicate 54 (0:ℚ)).length := by
  refine ⟨by decide, by decide, by decide⟩

/-- Claim C6 (amended): every processed sequence shorter than the 50-frame
cap is extended to length exactly 50 by appending all-zero vectors whose
width equals the width of the FIRST processed frame (which coincides with
the last frame's width exactly when a single frame qualifies). -/
theorem padding_to_fifty_with_first_frame_width (fs : List (List ℚ))
    (_h1 : fs ≠ []) (h2 : fs.length < 50) :
    (padTruncate fs).length = 50 ∧
      padTruncate fs =
        fs ++ List.replicate (50 - fs.length) (List.replicate fs.headI.length 0) := by
  constructor
  · unfold padTruncate
    rw [if_neg (by omega)]
    simp only [List.length_append, List.length_replicate, zeroLike]
    omega
  · unfold padTruncate zeroLike
    rw [if_neg (by omega)]

theorem padding_to_fifty_with_first_frame_width_witness :
    (padTruncate [List.replicate 27 (0:ℚ)]).length = 50 ∧
      padTruncate [List.replicate 27 (0:ℚ)] =
        [List.replicate 27 (0:ℚ)] ++
          List.replicate (50 - 1) (List.replicate ([List.replicate 27 (0:ℚ)].headI.length) 0) :=
  padding_to_fifty_with_first_frame_width [List.replicate 27 (0:ℚ)] (by decide) (by decide)

/-- Claim C9 (counterexample): a frame one point short of the full mesh is
not routed to any fallback in app.py; it contributes nothing to the
processed sequence, and an input consisting only of such frames takes the
`No valid lip landmarks found` error path instead of producing a
full-frame-based prediction. -/
theorem sub_fullmesh_frame_discarded :
    buildFrames sq0 [frame467] = Except.ok [] ∧
    predict_lip_reading sq0 [frame467] =
      ⟨"Error processing landmarks: No valid lip landmarks found", PF.num 0⟩ := by
  refine ⟨by decide, by decide⟩

/-- The sequence-level fallback of app_lightweight: when no lip index is
below the common per-frame point count (at most 13 points), the whole
request is analysed with `analyze_fallback_patterns` over the full frames. -/
theorem analyze_lw_fallback (s : ℚ → ℚ) (data : List Frame) (hne : data ≠ [])
    (hrect : isRect data = true) (hpc : data.headI.length ≤ 13) :
    analyze_lip_movement s data = analyze_fallback_patterns data := by
  unfold analyze_lip_movement
  rw [if_neg (by simpa [List.isEmpty_iff] using hne), if_pos hrect]
  have hfil : lwLipIdx.filter (fun i => decide (i < data.headI.length)) = [] := by
    apply List.filter_eq_nil_iff.mpr
    intro i hi
    have := lwLipIdx_ge i hi
    simp
    omega
  simp only [hfil]
  rfl

/-- The converse direction: as soon as the common per-frame point count is
at least 14, some lip index (13) is valid, so the full-frame fallback is NOT
taken and the lip slice is classified instead. -/
theorem analyze_lw_lipslice (s : ℚ → ℚ) (data : List Frame) (hne : data ≠ [])
    (hrect : isRect data = true) (hpc : 14 ≤ data.headI.length) :
    analyze_lip_movement s data = lipSliceAnalysis s data := by
  unfold analyze_lip_movement
  rw [if_neg (by simpa [List.isEmpty_iff] using hne), if_pos hrect]
  have hmem : (13:ℕ) ∈ lwLipIdx.filter (fun i => decide (i < data.headI.length)) := by
    rw [List.mem_filter]
    refine ⟨by decide, ?_⟩
    simp
    omega
  have hfil : (lwLipIdx.filter (fun i => decide (i < data.headI.length))).isEmpty = false := by
    simpa [List.isEmpty_iff] using List.ne_nil_of_mem hmem
  simp only [hfil, Bool.false_eq_true, if_false]

/-- Claim C9 (amended): in app.py a frame below the 468-point full mesh is
excluded from the lip-specific path and silently discarded (the output is
the same as if the frame were absent); only app_lightweight has a fallback
that uses the full frames instead of the lip subset, and it is
sequence-level, taken exactly when the common point count is at most 13:
with at most 13 points the full-frame fallback analysis runs, with 14 or
more the lip slice is classified instead. -/
theorem sub_fullmesh_discard_and_sequence_fallback :
    (∀ (s : ℚ → ℚ) (l1 l2 : List Frame) (f : Frame), f.length < 468 →
        predict_lip_reading s (l1 ++ f :: l2) = predict_lip_reading s (l1 ++ l2)) ∧
    (∀ (s : ℚ → ℚ) (data : List Frame), data ≠ [] → isRect data = true →
        data.headI.length ≤ 13 →
        analyze_lip_movement s data = analyze_fallback_patterns data) ∧
    (∀ (s : ℚ → ℚ) (data : List Frame), data ≠ [] → isRect data = true →
        14 ≤ data.headI.length →
        analyze_lip_movement s data = lipSliceAnalysis s data) := by
  refine ⟨?_, analyze_lw_fallback, analyze_lw_lipslice⟩
  intro s l1 l2 f h
  unfold predict_lip_reading preprocess_landmarks
  rw [buildFrames_discard s l1 l2 f h]

theorem sub_fullmesh_discard_and_sequence_fallback_witness :
    predict_lip_reading sq0 ([] ++ frame467 :: [zeroFrame]) =
        predict_lip_reading sq0 ([] ++ [zeroFrame]) ∧
      analyze_lip_movement sq0 [[[0], [0]]] = analyze_fallback_patterns [[[0], [0]]] ∧
      analyze_lip_movement sq0 lw14 = lipSliceAnalysis sq0 lw14 :=
  ⟨sub_fullmesh_discard_and_sequence_fallback.1 sq0 [] [zeroFrame] frame467 (by decide),
   sub_fullmesh_discard_and_sequence_fallback.2.1 sq0 [[[0], [0]]] (by decide) (by decide)
     (by decide),
   sub_fullmesh_discard_and_sequence_fallback.2.2 sq0 lw14 (by decide) (by decide)
     (by decide)⟩

/-- Claim C3 (counterexample): with three full-mesh frames, preprocessing
does not produce a ragged `[W, 2W, 2W]` list that fails at tensor
construction; it fails earlier, at the third frame's displacement
subtraction (`flatten` width 27 against previous enhanced width 54, a numpy
broadcast error), before any stacking is attempted. -/
theorem three_fullmesh_frames_break_before_stacking :
    buildFrames sq0 [zeroFrame, zeroFrame, zeroFrame] =
      Except.error (PErr.broadcast 27 54) := by
  decide

/-- Claim C3 (amended): for every input with uniform positive point
dimension containing two or more full-mesh (at least 468-point) frames, the
`/predict` handler takes the error branch and returns confidence exactly 0.0
with an error-prefixed text, never a normal prediction.  With exactly two
qualifying frames the widths are `W` then `2W` and the ragged list fails at
tensor construction; with three or more, the displacement subtraction fails
first. -/
theorem multi_fullmesh_frames_error (s : ℚ → ℚ) (l : List Frame) (d : ℕ)
    (hd : 0 < d) (hp : ∀ f ∈ l, ∀ p ∈ f, p.length = d)
    (hq : 2 ≤ (l.filter isFullMesh).length) :
    ∃ e, predict_lip_reading s l =
      ⟨"Error processing landmarks: " ++ PErr.msg e, PF.num 0⟩ := by
  have hmem : ∀ f ∈ l.filter isFullMesh, 468 ≤ f.length ∧ ∀ p ∈ f, p.length = d := by
    intro f hf
    rw [List.mem_filter] at hf
    exact ⟨by simpa [isFullMesh] using hf.2, hp f hf.1⟩
  rcases hfl : l.filter isFullMesh with _ | ⟨f1, _ | ⟨f2, rest2⟩⟩
  · rw [hfl] at hq; simp at hq
  · rw [hfl] at hq; simp at hq
  · have h1 := hmem f1 (by rw [hfl]; simp)
    have h2 := hmem f2 (by rw [hfl]; simp)
    cases rest2 with
    | nil =>
      obtain ⟨v1, v2, hok, hl1, hl2⟩ := bff_two_ok s d f1 f2 h1.1 h2.1 h1.2 h2.2
      have hok2 : buildFrames s [f1, f2] = Except.ok [v1, v2] := hok
      refine ⟨PErr.ragged v1.length v2.length, ?_⟩
      apply predict_of_preprocess_error
      unfold preprocess_landmarks
      rw [buildFrames_filter s l, hfl, hok2]
      show stackTensor (padTruncate [v1, v2]) = Except.error (PErr.ragged v1.length v2.length)
      rw [padTruncate_two]
      exact stackTensor_second_mismatch v1 v2 _ (by rw [hl1, hl2]; omega)
    | cons f3 rest3 =>
      have h3 := hmem f3 (by rw [hfl]; simp)
      refine ⟨PErr.broadcast (27 * d) (54 * d), ?_⟩
      apply predict_of_preprocess_error
      apply preprocess_of_buildFrames_error
      rw [buildFrames_filter s l, hfl]
      exact bff_three_error s d hd f1 f2 f3 rest3 h1.1 h2.1 h3.1 h1.2 h2.2 h3.2

theorem multi_fullmesh_frames_error_witness :
    ∃ e, predict_lip_reading sq0 [zeroFrame, zeroFrame] =
      ⟨"Error processing landmarks: " ++ PErr.msg e, PF.num 0⟩ :=
  multi_fullmesh_frames_error sq0 [zeroFrame, zeroFrame] 1 (by decide) (by decide) (by decide)

/-- Claim C7 (counterexample): a 51-frame input whose only full-mesh frame
is the last one: the whole pipeline succeeds on it (confidence 0.1), while
the pipeline on the first 50 raw frames takes the error branch (confidence
0.0) — the output is not the output on the first 50 raw frames. -/
theorem truncation_not_first_fifty_raw_frames :
    50 < bigInput.length ∧
      predict_lip_reading sq0 bigInput ≠ predict_lip_reading sq0 (bigInput.take 50) := by
  refine ⟨by decide, by decide⟩

/-- Claim C7 (amended): truncation applies to the processed frame list, so
for every input of uniform positive point dimension the pipeline output
equals the output on the first 50 QUALIFYING (full-mesh) frames — not on the
first 50 raw frames. -/
theorem truncation_is_first_fifty_qualifying (s : ℚ → ℚ) (l : List Frame) (d : ℕ)
    (hd : 0 < d) (hp : ∀ f ∈ l, ∀ p ∈ f, p.length = d) :
    predict_lip_reading s l = predict_lip_reading s ((l.filter isFullMesh).take 50) := by
  by_cases hlen : (l.filter isFullMesh).length ≤ 50
  · rw [List.take_of_length_le hlen]
    unfold predict_lip_reading preprocess_landmarks
    rw [buildFrames_filter s l]
  · push_neg at hlen
    have hmem : ∀ f ∈ l.filter isFullMesh, 468 ≤ f.length ∧ ∀ p ∈ f, p.length = d := by
      intro f hf
      rw [List.mem_filter] at hf
      exact ⟨by simpa [isFullMesh] using hf.2, hp f hf.1⟩
    rcases hfl : l.filter isFullMesh with _ | ⟨f1, _ | ⟨f2, _ | ⟨f3, rest⟩⟩⟩
    · rw [hfl] at hlen; simp at hlen
    · rw [hfl] at hlen; simp at hlen
    · rw [hfl] at hlen; simp at hlen
    · have h1 := hmem f1 (by rw [hfl]; simp)
      have h2 := hmem f2 (by rw [hfl]; simp)
      have h3 := hmem f3 (by rw [hfl]; simp)
      have herr1 : buildFrames s l = Except.error (PErr.broadcast (27 * d) (54 * d)) := by
        rw [buildFrames_filter s l, hfl]
        exact bff_three_error s d hd f1 f2 f3 rest h1.1 h2.1 h3.1 h1.2 h2.2 h3.2
      have htake : List.take 50 (f1 :: f2 :: f3 :: rest) = f1 :: f2 :: f3 :: rest.take 47 :=
        rfl
      have herr2 : buildFrames s (List.take 50 (f1 :: f2 :: f3 :: rest)) =
          Except.error (PErr.broadcast (27 * d) (54 * d)) := by
        rw [htake]
        exact bff_three_error s d hd f1 f2 f3 (rest.take 47) h1.1 h2.1 h3.1 h1.2 h2.2
          h3.2
      rw [predict_of_preprocess_error s l _ (preprocess_of_buildFrames_error s l _ herr1),
        predict_of_preprocess_error s _ _ (preprocess_of_buildFrames_error s _ _ herr2)]

theorem truncation_is_first_fifty_qualifying_witness :
    predict_lip_reading sq0 [zeroFrame, zeroFrame] =
      predict_lip_reading sq0 (([zeroFrame, zeroFrame].filter isFullMesh).take 50) :=
  truncation_is_first_fifty_qualifying sq0 [zeroFrame, zeroFrame] 1 (by decide) (by decide)
